import Mathlib

/-!
Shallow embedding of the core of the Telegram file-sharing bot
(force-subscription access gate, delivery flows, flood-wait retry wrapper,
and the auto-delete scheduler with its persisted delete queue), together
with theorems checking the natural-language specification against it.

Sources embedded:
 - src/plugins/force_sub.py   (check_channel_subscription, check_force_subscription)
 - src/config.py              (FORCE_SUB_CHANNELS, IS_FORCE_SUB_ENABLED)
 - src/bot.py                 (send_message_with_retry, copy_message_with_retry)
 - src/database/database.py   (user/file/batch collections, auto_delete_queue)
 - src/utils/auto_delete.py   (schedule_delete, cancel_delete, delete handling)
 - src/utils/helpers.py       (get_file_id and the token decoding it performs)
 - src/plugins/start.py       (start_handler, handle_file_request, handle_batch_request)

Remote collaborators (the Telegram client and MongoDB) are modelled as
explicit oracles / explicit state: a GatewayEnv record of pure functions
answers get_chat / get_chat_member / export_chat_invite_link, per-call
oracles answer copy_message attempts, and the Mongo collections are lists
of documents threaded through each operation.

The source has a defect the embedding must carry: config.py declares
FORCE_SUB_CHANNELS and IS_FORCE_SUB_ENABLED as instance properties, but
every use is a class-level access, so Config.IS_FORCE_SUB_ENABLED() in
force_sub.py raises TypeError on every call (a property descriptor object
is not callable), and the truthiness tests in start.py see the always
truthy property object. The embedding makes these raises explicit through
PyExc / Except values and a raised field on handler outcomes.
-/

namespace FileShareBot

/-- A Python exception value tracked by the embedding. -/
inductive PyExc where
  | typeError (msg : String)
deriving DecidableEq

/-! ## Messaging gateway oracle -/

/-- Result of a client.get_chat call: either chat metadata (title and
optional public username), or one of the exceptions caught in
check_channel_subscription. -/
inductive ChatResult where
  | ok (title : String) (username : Option String)
  | channelPrivate
  | chatAdminRequired
  | otherError (msg : String)
deriving DecidableEq

/-- Result of a client.get_chat_member call: a membership status string,
the UserNotParticipant exception, or any other exception. -/
inductive MemberResult where
  | ok (status : String)
  | userNotParticipant
  | otherError (msg : String)
deriving DecidableEq

/-- Pure oracle standing for the Telegram client's read calls used by the
access gate. -/
structure GatewayEnv where
  getChat : Int → ChatResult
  exportChatInviteLink : Int → Option String
  getChatMember : Int → Int → MemberResult

/-! ## Access gate (src/plugins/force_sub.py) -/

/-- The per-channel report dict built by check_channel_subscription. -/
structure ChannelInfo where
  channel_id : Int
  joined : Bool
  username : Option String
  title : String
  invite_link : Option String
  error : Option String
deriving DecidableEq

/-- Fallback invite link used when export_chat_invite_link fails:
the literal f-string https-t.me-c link over str(channel_id)[4:]. -/
def fallbackInviteLink (channel_id : Int) : String :=
  "https://t.me/c/" ++ (toString channel_id).drop 4

/-- Embeds check_channel_subscription (src/plugins/force_sub.py lines 34-85).
Starts from the default info dict, fills title/username from get_chat,
obtains an invite link when the chat has no username, then queries
membership: a status outside \x7b left, kicked \x7d marks the channel
joined; UserNotParticipant leaves joined False with no error; any other
membership exception records the error and leaves joined False; the outer
exceptions (ChannelPrivate, ChatAdminRequired, anything else) record an
error on the default dict. -/
def check_channel_subscription (env : GatewayEnv) (user_id channel_id : Int) :
    ChannelInfo :=
  let info : ChannelInfo :=
    { channel_id := channel_id, joined := false, username := none,
      title := "Unknown Channel", invite_link := none, error := none }
  match env.getChat channel_id with
  | ChatResult.ok title uname =>
    let info := { info with title := title, username := uname }
    let info :=
      match uname with
      | some _ => info
      | none =>
        match env.exportChatInviteLink channel_id with
        | some link => { info with invite_link := some link }
        | none => { info with invite_link := some (fallbackInviteLink channel_id) }
    match env.getChatMember channel_id user_id with
    | MemberResult.ok status =>
      if status ≠ "left" ∧ status ≠ "kicked" then { info with joined := true } else info
    | MemberResult.userNotParticipant => info
    | MemberResult.otherError msg => { info with error := some msg, joined := false }
  | ChatResult.channelPrivate =>
    { info with error := some "Channel is private or bot lacks admin privileges" }
  | ChatResult.chatAdminRequired =>
    { info with error := some "Bot needs admin privileges in this channel" }
  | ChatResult.otherError msg => { info with error := some msg }

/-- The dict returned by check_force_subscription. -/
structure SubscriptionStatus where
  all_joined : Bool
  channels : List ChannelInfo
deriving DecidableEq

/-- Embeds Config.FORCE_SUB_CHANNELS (src/config.py lines 90-100): the
list of the three configured channel ids, keeping only truthy (nonzero)
entries, in order. -/
def FORCE_SUB_CHANNELS (c1 c2 c3 : Int) : List Int :=
  (if c1 ≠ 0 then [c1] else []) ++ (if c2 ≠ 0 then [c2] else []) ++
    (if c3 ≠ 0 then [c3] else [])

/-- Embeds Config.IS_FORCE_SUB_ENABLED (src/config.py lines 102-105):
true iff the configured channel list is nonempty. -/
def isForceSubEnabled (channels : List Int) : Bool :=
  channels.length > 0

/-- The for-loop body of check_force_subscription: append each channel
report and clear all_joined when a channel is not joined. -/
def checkForceSubLoop (env : GatewayEnv) (user_id : Int) :
    List Int → SubscriptionStatus → SubscriptionStatus
  | [], acc => acc
  | cid :: rest, acc =>
    let cinfo := check_channel_subscription env user_id cid
    let acc := { acc with channels := acc.channels ++ [cinfo] }
    let acc := if cinfo.joined = false then { acc with all_joined := false } else acc
    checkForceSubLoop env user_id rest acc

/-- Embeds the expression Config.IS_FORCE_SUB_ENABLED() at
src/plugins/force_sub.py line 17. IS_FORCE_SUB_ENABLED is declared with
the property decorator (src/config.py lines 102-105) but Config is never
instantiated and the access is on the class, so the attribute lookup
yields the property descriptor object itself and the call raises
TypeError on every invocation. -/
def IS_FORCE_SUB_ENABLED_call : Except PyExc Bool :=
  Except.error (PyExc.typeError "'property' object is not callable")

/-- Embeds the expression Config.FORCE_SUB_CHANNELS() at
src/plugins/force_sub.py line 25: the same class-level property-object
call, raising TypeError. The list the property body would compute on an
instance is FORCE_SUB_CHANNELS above. -/
def FORCE_SUB_CHANNELS_call : Except PyExc (List Int) :=
  Except.error (PyExc.typeError "'property' object is not callable")

/-- Embeds check_force_subscription (src/plugins/force_sub.py lines 12-32)
with the property-call semantics made explicit: its first statement calls
Config.IS_FORCE_SUB_ENABLED(), which raises TypeError on every call, so
the coroutine always raises and never returns a report; the remainder —
the disabled short-circuit and the per-channel fold — is the source text
after that statement, unreachable as the program stands. -/
def check_force_subscription (env : GatewayEnv) (user_id : Int) :
    Except PyExc SubscriptionStatus :=
  match IS_FORCE_SUB_ENABLED_call with
  | Except.error e => Except.error e
  | Except.ok enabled =>
    if enabled = false then Except.ok { all_joined := true, channels := [] }
    else
      match FORCE_SUB_CHANNELS_call with
      | Except.error e => Except.error e
      | Except.ok channels =>
        Except.ok (checkForceSubLoop env user_id channels
          { all_joined := true, channels := [] })

/-- Embeds the test if Config.IS_FORCE_SUB_ENABLED: at
src/plugins/start.py lines 67 and 113: the class-level attribute read
yields the property descriptor object itself, which is truthy, so the
gate branch is taken on every request. -/
def IS_FORCE_SUB_ENABLED_attr : Bool :=
  true

/-! ## Flood-wait retry wrappers (src/bot.py) -/

/-- A sent/copied message, keeping the fields the handlers read back
(sent_message.chat.id and sent_message.id). -/
structure SentMsg where
  chat_id : Int
  msg_id : Int
deriving DecidableEq

/-- Result of one underlying send_message / copy_message attempt: success,
a FloodWait exception carrying the wait seconds, or any other exception. -/
inductive CallResult where
  | ok (msg : SentMsg)
  | floodWait (seconds : Int)
  | otherError (msg : String)
deriving DecidableEq

/-- Observable behaviour of a retry-wrapped call: the value returned or
exception raised, the sleeps performed, and how many underlying attempts
were made. -/
structure RetryResult where
  result : CallResult
  sleeps : List Int
  callCount : Nat
deriving DecidableEq

/-- Embeds Bot.copy_message_with_retry (src/bot.py lines 91-98): try the
call; on FloodWait sleep for the signalled seconds and retry exactly once,
returning (or raising) whatever the second attempt produces; any other
first-attempt exception propagates without retry. The oracle gives the
outcome of attempt 0 and attempt 1. -/
def copy_message_with_retry (call : Nat → CallResult) : RetryResult :=
  match call 0 with
  | CallResult.floodWait n => { result := call 1, sleeps := [n], callCount := 2 }
  | r => { result := r, sleeps := [], callCount := 1 }

/-- Embeds Bot.send_message_with_retry (src/bot.py lines 82-89); identical
retry discipline to copy_message_with_retry. No call site in the
repository invokes this wrapper. -/
def send_message_with_retry (call : Nat → CallResult) : RetryResult :=
  match call 0 with
  | CallResult.floodWait n => { result := call 1, sleeps := [n], callCount := 2 }
  | r => { result := r, sleeps := [], callCount := 1 }

/-- Embeds the delivery flow's direct reply sends — message.reply_text at
src/plugins/start.py lines 56, 76, 103, 106, 122, 133, 172, 175 and 193:
these call the gateway directly, never through the bot.py retry wrappers,
so there is exactly one underlying attempt and no sleep, and a FloodWait
outcome propagates to the caller as-is. -/
def reply_text_raw (call : Nat → CallResult) : RetryResult :=
  { result := call 0, sleeps := [], callCount := 1 }

/-! ## Auto-delete scheduler (src/utils/auto_delete.py, src/database/database.py) -/

/-- A document of the auto_delete_queue collection
(Database.add_to_delete_queue, src/database/database.py lines 244-257). -/
structure QueueRow where
  chat_id : Int
  message_id : Int
  delete_at : Int
  created_at : Int
deriving DecidableEq

/-- An APScheduler date job armed by AutoDeleteManager.schedule_delete:
its string job id, run date, and the chat/message args it will fire with. -/
structure TimerJob where
  id : String
  runDate : Int
  chat_id : Int
  message_id : Int
deriving DecidableEq

/-- Combined scheduler state: the persisted auto_delete_queue collection,
the in-process APScheduler jobs, and the manager's is_running flag. -/
structure SchedState where
  queue : List QueueRow
  timers : List TimerJob
  isRunning : Bool
deriving DecidableEq

/-- The job id string used by schedule_delete and cancel_delete:
delete_ followed by the chat id, an underscore, and the message id. -/
def deleteJobId (chat_id message_id : Int) : String :=
  "delete_" ++ toString chat_id ++ "_" ++ toString message_id

/-- Mongo delete_one on the queue with filter chat_id/message_id: removes
the first matching document only (Database.remove_from_delete_queue,
src/database/database.py lines 268-276). -/
def removeFirstMatch (chat_id message_id : Int) : List QueueRow → List QueueRow
  | [] => []
  | r :: rest =>
    if r.chat_id = chat_id ∧ r.message_id = message_id then rest
    else r :: removeFirstMatch chat_id message_id rest

/-- Number of queue rows for a (chat, message) key. -/
def countMatch (queue : List QueueRow) (chat_id message_id : Int) : Nat :=
  queue.countP (fun r => r.chat_id == chat_id && r.message_id == message_id)

/-- One primitive effect of schedule_delete, split out so that the order
of the durable insert and the in-process arming is itself observable. -/
inductive SchedOp where
  | dbInsert (row : QueueRow)
  | armTimer (t : TimerJob)
deriving DecidableEq

/-- Applying one primitive scheduling effect: dbInsert is the Mongo
insert_one into auto_delete_queue (plain append, no upsert); armTimer is
APScheduler add_job with replace_existing, which drops any job with the
same id before adding the new one. -/
def applySchedOp (st : SchedState) : SchedOp → SchedState
  | SchedOp.dbInsert row => { st with queue := st.queue ++ [row] }
  | SchedOp.armTimer t =>
    { st with timers := st.timers.filter (fun u => u.id ≠ t.id) ++ [t] }

/-- The effect list of AutoDeleteManager.schedule_delete
(src/utils/auto_delete.py lines 47-68): nothing when the manager is not
running or the delay is nonpositive; otherwise first the durable queue
insert at delete_time now + delay, then the timer arming under the
delete_chat_message job id. -/
def schedule_delete_ops (st : SchedState) (chat_id message_id delay_seconds now : Int) :
    List SchedOp :=
  if st.isRunning = false ∨ delay_seconds ≤ 0 then []
  else
    [SchedOp.dbInsert
        { chat_id := chat_id, message_id := message_id,
          delete_at := now + delay_seconds, created_at := now },
      SchedOp.armTimer
        { id := deleteJobId chat_id message_id, runDate := now + delay_seconds,
          chat_id := chat_id, message_id := message_id }]

/-- Embeds AutoDeleteManager.schedule_delete as the composition of its
primitive effects in source order. -/
def schedule_delete (st : SchedState) (chat_id message_id delay_seconds now : Int) :
    SchedState :=
  (schedule_delete_ops st chat_id message_id delay_seconds now).foldl applySchedOp st

/-- Whether an in-process timer with the given job id is armed. -/
def hasTimer (st : SchedState) (jid : String) : Bool :=
  st.timers.any (fun t => t.id == jid)

/-- The timers armed under a given job id. -/
def timersFor (st : SchedState) (jid : String) : List TimerJob :=
  st.timers.filter (fun t => t.id == jid)

/-- Embeds AutoDeleteManager.cancel_delete (src/utils/auto_delete.py lines
70-79). scheduler.remove_job raises when no job has the id; the except
block swallows that, so the queue removal runs only when a timer was
armed. When a timer is armed, both the timer and the first matching
persisted row are removed. The function never raises. -/
def cancel_delete (st : SchedState) (chat_id message_id : Int) : SchedState :=
  let jid := deleteJobId chat_id message_id
  if hasTimer st jid then
    { st with timers := st.timers.filter (fun t => t.id ≠ jid),
              queue := removeFirstMatch chat_id message_id st.queue }
  else st

/-- Embeds AutoDeleteManager._delete_message (src/utils/auto_delete.py
lines 81-109). remoteDeleteOk tells whether client.delete_messages
succeeded; on success the queue row is removed afterwards, and on any
exception the except block removes the queue row as well, so both
branches remove the first matching row. -/
def delete_message_run (st : SchedState) (chat_id message_id : Int)
    (remoteDeleteOk : Bool) : SchedState :=
  if remoteDeleteOk then
    { st with queue := removeFirstMatch chat_id message_id st.queue }
  else
    { st with queue := removeFirstMatch chat_id message_id st.queue }

/-! ## Database documents and operations (src/database/database.py) -/

/-- A users-collection document (Database.add_user). -/
structure UserDoc where
  user_id : Int
  first_name : String
  last_name : String
  username : String
  joined_date : Int
  last_activity : Int
  files_accessed : Nat
  is_banned : Bool
deriving DecidableEq

/-- A files-collection document (Database.save_file). -/
structure FileDoc where
  file_id : String
  message_id : Int
  file_name : String
  file_size : Int
  file_type : String
  mime_type : String
  caption : String
  uploaded_by : Int
  upload_date : Int
  access_count : Nat
deriving DecidableEq

/-- A batch_links-collection document (Database.create_batch_link). -/
structure BatchDoc where
  batch_id : String
  file_ids : List String
  title : String
  description : String
  created_by : Int
  created_date : Int
  access_count : Nat
  is_active : Bool
deriving DecidableEq

/-- The Mongo collections the delivery flows touch (the delete queue is
carried separately inside SchedState). -/
structure DB where
  users : List UserDoc
  files : List FileDoc
  batch_links : List BatchDoc
deriving DecidableEq

/-- Mongo update_one semantics: apply the update to the first matching
document only. -/
def updateFirst (p : α → Bool) (f : α → α) : List α → List α
  | [] => []
  | x :: rest => if p x then f x :: rest else x :: updateFirst p f rest

/-- Database.get_file: find_one on file_id. -/
def get_file (db : DB) (file_id : String) : Option FileDoc :=
  db.files.find? (fun f => f.file_id == file_id)

/-- Database.increment_file_access: inc access_count on the first
file_id match. -/
def increment_file_access (db : DB) (file_id : String) : DB :=
  { db with
    files := updateFirst (fun f => f.file_id == file_id)
      (fun f => { f with access_count := f.access_count + 1 }) db.files }

/-- Database.increment_user_file_access: inc files_accessed on the first
user_id match. -/
def increment_user_file_access (db : DB) (user_id : Int) : DB :=
  { db with
    users := updateFirst (fun u => u.user_id == user_id)
      (fun u => { u with files_accessed := u.files_accessed + 1 }) db.users }

/-- Database.get_batch_link: find_one on batch_id with is_active true. -/
def get_batch_link (db : DB) (batch_id : String) : Option BatchDoc :=
  db.batch_links.find? (fun b => b.batch_id == batch_id && b.is_active)

/-- Database.increment_batch_access: inc access_count on the first
batch_id match (no is_active filter here). -/
def increment_batch_access (db : DB) (batch_id : String) : DB :=
  { db with
    batch_links := updateFirst (fun b => b.batch_id == batch_id)
      (fun b => { b with access_count := b.access_count + 1 }) db.batch_links }

/-- Database.update_user_activity: set last_activity on the first
user_id match. -/
def update_user_activity (db : DB) (user_id now : Int) : DB :=
  { db with
    users := updateFirst (fun u => u.user_id == user_id)
      (fun u => { u with last_activity := now }) db.users }

/-- The display fields start_handler passes to add_user. -/
structure UserData where
  first_name : String
  last_name : String
  username : String
deriving DecidableEq

/-- Database.add_user (src/database/database.py lines 75-98): insert the
fresh user document; on the duplicate-key error for an existing user,
fall back to update_user_activity. -/
def add_user (db : DB) (user_id : Int) (ud : UserData) (now : Int) : DB :=
  if db.users.any (fun u => u.user_id == user_id) then
    update_user_activity db user_id now
  else
    { db with
      users := db.users ++
        [{ user_id := user_id, first_name := ud.first_name,
           last_name := ud.last_name, username := ud.username,
           joined_date := now, last_activity := now,
           files_accessed := 0, is_banned := false }] }

/-- The files_accessed counter visible for a user (0 when absent). -/
def filesAccessedOf (db : DB) (user_id : Int) : Nat :=
  ((db.users.find? (fun u => u.user_id == user_id)).map
    (fun u => u.files_accessed)).getD 0

/-! ## Share-token decoding (src/utils/helpers.py get_file_id)

get_file_id calls Python's base64.b64decode and bytes.decode; these
standard-library steps are modelled here. b64decode with validate False
is binascii.a2b_base64 in non-strict mode, modelled as its character
state machine: non-alphabet characters are discarded, data characters
advance the current quad emitting bytes incrementally, padding is
ignored before quad position 2 and completes decoding (ignoring all
later input) once it fills a quad, and input ending mid-quad is an
incorrect-padding error. The bytes are then UTF-8 decoded rejecting
overlong forms and surrogates. -/

/-- Value of a base64 alphabet character, none for anything else. -/
def b64val (c : Char) : Option Nat :=
  let n := c.toNat
  if 65 ≤ n ∧ n ≤ 90 then some (n - 65)
  else if 97 ≤ n ∧ n ≤ 122 then some (n - 97 + 26)
  else if 48 ≤ n ∧ n ≤ 57 then some (n - 48 + 52)
  else if n = 43 then some 62
  else if n = 47 then some 63
  else none

/-- Running state of CPython's binascii a2b_base64 loop: position inside
the current quad (0-3), the pending bits of the previous character, the
pad count for the current quad, and the bytes emitted so far. -/
structure B64State where
  quadPos : Nat
  leftchar : Nat
  pads : Nat
  out : List Nat

/-- The character loop of CPython's non-strict binascii.a2b_base64 (what
base64.b64decode runs with validate False). A pad character is ignored
before quad position 2; at position 2 or 3 it accumulates until it
completes the quad, at which point decoding finishes successfully with
the bytes emitted so far, ignoring all remaining input. A data character
resets the pad count and advances the quad, emitting one byte from
position 1 onward. Any other character is discarded. Input exhausted
mid-quad is an incorrect-padding error. -/
def a2b_base64_loop : List Char → B64State → Option (List Nat)
  | [], st => if st.quadPos = 0 then some st.out else none
  | c :: rest, st =>
    if c.toNat = 61 then
      if 2 ≤ st.quadPos ∧ 4 ≤ st.quadPos + st.pads + 1 then some st.out
      else
        a2b_base64_loop rest
          { st with pads := if 2 ≤ st.quadPos then st.pads + 1 else st.pads }
    else
      match b64val c with
      | none => a2b_base64_loop rest st
      | some v =>
        match st.quadPos with
        | 0 =>
          a2b_base64_loop rest
            { quadPos := 1, leftchar := v, pads := 0, out := st.out }
        | 1 =>
          a2b_base64_loop rest
            { quadPos := 2, leftchar := v % 16, pads := 0,
              out := st.out ++ [st.leftchar * 4 + v / 16] }
        | 2 =>
          a2b_base64_loop rest
            { quadPos := 3, leftchar := v % 4, pads := 0,
              out := st.out ++ [st.leftchar * 16 + v / 4] }
        | _ =>
          a2b_base64_loop rest
            { quadPos := 0, leftchar := 0, pads := 0,
              out := st.out ++ [st.leftchar * 64 + v] }

/-- Model of base64.b64decode with validate False: run the a2b_base64
machine from the empty state. -/
def pyB64Decode (s : String) : Option (List Nat) :=
  a2b_base64_loop s.data { quadPos := 0, leftchar := 0, pads := 0, out := [] }

/-- Whether a byte is a UTF-8 continuation byte. -/
def isContByte (b : Nat) : Bool :=
  128 ≤ b ∧ b < 192

/-- Model of bytes.decode: strict UTF-8, rejecting continuation-byte
starts, overlong encodings, surrogate code points, and values past the
Unicode maximum. -/
def utf8DecodeBytes : List Nat → Option (List Char)
  | [] => some []
  | b :: rest =>
    if b < 128 then
      (utf8DecodeBytes rest).map (fun cs => Char.ofNat b :: cs)
    else if b < 194 then none
    else if b < 224 then
      match rest with
      | b2 :: rest2 =>
        if isContByte b2 then
          (utf8DecodeBytes rest2).map
            (fun cs => Char.ofNat ((b - 192) * 64 + (b2 - 128)) :: cs)
        else none
      | [] => none
    else if b < 240 then
      match rest with
      | b2 :: b3 :: rest3 =>
        if isContByte b2 ∧ isContByte b3 then
          let cp := (b - 224) * 4096 + (b2 - 128) * 64 + (b3 - 128)
          if 2048 ≤ cp ∧ (cp < 55296 ∨ 57343 < cp) then
            (utf8DecodeBytes rest3).map (fun cs => Char.ofNat cp :: cs)
          else none
        else none
      | _ => none
    else if b < 245 then
      match rest with
      | b2 :: b3 :: b4 :: rest4 =>
        if isContByte b2 ∧ isContByte b3 ∧ isContByte b4 then
          let cp := (b - 240) * 262144 + (b2 - 128) * 4096 + (b3 - 128) * 64 +
            (b4 - 128)
          if 65536 ≤ cp ∧ cp ≤ 1114111 then
            (utf8DecodeBytes rest4).map (fun cs => Char.ofNat cp :: cs)
          else none
        else none
      | _ => none
    else none

/-- Python str.split on a single character, restricted to counting:
produces the list of separator-delimited pieces. -/
def splitOnChar (sep : Char) : List Char → List (List Char)
  | [] => [[]]
  | c :: rest =>
    let r := splitOnChar sep rest
    if c = sep then [] :: r
    else
      match r with
      | h :: t => (c :: h) :: t
      | [] => [[c]]

/-- Whether the second character list starts with the first. -/
def charsStart : List Char → List Char → Bool
  | [], _ => true
  | _ :: _, [] => false
  | p :: ps, c :: cs => if p = c then charsStart ps cs else false

/-- Whether a token carries the batch namespace marker. -/
def startsWithBatch (s : String) : Bool :=
  charsStart "batch_".data s.data

/-- Embeds get_file_id (src/utils/helpers.py lines 29-42): batch-prefixed
tokens are not file ids; otherwise base64-decode and UTF-8-decode the
token (any exception yields none) and require at least two
underscore-separated parts, returning the original encoded id. -/
def get_file_id (encoded_id : String) : Option String :=
  if startsWithBatch encoded_id then none
  else
    match pyB64Decode encoded_id with
    | none => none
    | some bytes =>
      match utf8DecodeBytes bytes with
      | none => none
      | some decoded =>
        if 2 ≤ (splitOnChar (Char.ofNat 95) decoded).length then some encoded_id
        else none

/-! ## Delivery flows (src/plugins/start.py) -/

/-- The configuration fields the delivery flows read successfully
(AUTO_DELETE_TIME is a plain class attribute, unlike the broken
property accessors). -/
structure BotConfig where
  AUTO_DELETE_TIME : Int
deriving DecidableEq

/-- Combined world state threaded through the handlers: the Mongo
collections plus the auto-delete scheduler (whose queue field is the
auto_delete_queue collection). -/
structure World where
  db : DB
  sched : SchedState
deriving DecidableEq

/-- The user-visible replies a handler sends, abstracted from their
message text and keyboards. -/
inductive Reply where
  | welcome
  | forceSub (report : SubscriptionStatus)
  | fileNotFound
  | autoDeleteNote (seconds : Int)
  | sendErrorFlood (seconds : Int)
  | sendError (msg : String)
  | batchNotFound
  | batchInfo (title : String) (fileCount : Nat) (views : Nat)
  | batchComplete (sent total : Nat)
deriving DecidableEq

/-- Everything observable about one handler invocation: the world after
it, the replies sent to the user, the file messages delivered, and the
exception, if any, that escaped the handler (propagating to the library
dispatcher). -/
structure HandlerRun where
  world : World
  replies : List Reply
  delivered : List SentMsg
  raised : Option PyExc
deriving DecidableEq

/-- The body of handle_file_request after the gate (src/plugins/start.py
lines 73-106): look up the file; on success of the retried copy,
increment the file and user counters, then under a positive
AUTO_DELETE_TIME schedule the deletion and send the auto-delete note;
a FloodWait surviving the retry or any other send exception is caught
and reported as a send-failure reply with no state change. -/
def fileRequestCore (cfg : BotConfig) (copyCalls : String → Nat → CallResult)
    (now : Int) (w : World) (user_id : Int) (file_id : String) : HandlerRun :=
  match get_file w.db file_id with
  | none =>
    { world := w, replies := [Reply.fileNotFound], delivered := [], raised := none }
  | some _fd =>
    match (copy_message_with_retry (copyCalls file_id)).result with
    | CallResult.ok sent =>
      let db := increment_file_access w.db file_id
      let db := increment_user_file_access db user_id
      if cfg.AUTO_DELETE_TIME > 0 then
        let sched :=
          schedule_delete w.sched sent.chat_id sent.msg_id cfg.AUTO_DELETE_TIME now
        { world := { db := db, sched := sched },
          replies := [Reply.autoDeleteNote cfg.AUTO_DELETE_TIME],
          delivered := [sent], raised := none }
      else
        { world := { db := db, sched := w.sched }, replies := [],
          delivered := [sent], raised := none }
    | CallResult.floodWait n =>
      { world := w, replies := [Reply.sendErrorFlood n], delivered := [],
        raised := none }
    | CallResult.otherError e =>
      { world := w, replies := [Reply.sendError e], delivered := [],
        raised := none }

/-- Embeds handle_file_request (src/plugins/start.py lines 62-106): line
67 tests the always-truthy property object, so the gate branch is taken
on every call, and the awaited check_force_subscription raises TypeError
there — outside the try block — so the exception escapes the handler
before any reply, lookup, delivery, or counter mutation. The gate-report
branches and the gate-skip branch are the source text of lines 69-71 and
73-106, unreachable as the program stands. -/
def handle_file_request (cfg : BotConfig) (env : GatewayEnv)
    (copyCalls : String → Nat → CallResult) (now : Int) (w : World)
    (user_id : Int) (file_id : String) : HandlerRun :=
  if IS_FORCE_SUB_ENABLED_attr then
    match check_force_subscription env user_id with
    | Except.error e =>
      { world := w, replies := [], delivered := [], raised := some e }
    | Except.ok report =>
      if report.all_joined = false then
        { world := w, replies := [Reply.forceSub report], delivered := [],
          raised := none }
      else fileRequestCore cfg copyCalls now w user_id file_id
  else fileRequestCore cfg copyCalls now w user_id file_id

/-- The per-file loop of handle_batch_request (src/plugins/start.py lines
136-161): files resolve against the collections as they were when the
loop started (nothing in the loop writes to them); an unresolvable token
is skipped silently; a send failure is logged and the loop continues;
each delivered message bumps sent_count and is scheduled for deletion
when expiry is active. -/
def batchLoop (cfg : BotConfig) (copyCalls : String → Nat → CallResult)
    (now : Int) (db : DB) :
    List String → SchedState → Nat → List SentMsg → SchedState × Nat × List SentMsg
  | [], sched, sentCount, acc => (sched, sentCount, acc)
  | fid :: rest, sched, sentCount, acc =>
    match get_file db fid with
    | none => batchLoop cfg copyCalls now db rest sched sentCount acc
    | some _fd =>
      match (copy_message_with_retry (copyCalls fid)).result with
      | CallResult.ok sent =>
        let sched2 :=
          if cfg.AUTO_DELETE_TIME > 0 then
            schedule_delete sched sent.chat_id sent.msg_id cfg.AUTO_DELETE_TIME now
          else sched
        batchLoop cfg copyCalls now db rest sched2 (sentCount + 1) (acc ++ [sent])
      | CallResult.floodWait _ => batchLoop cfg copyCalls now db rest sched sentCount acc
      | CallResult.otherError _ => batchLoop cfg copyCalls now db rest sched sentCount acc

/-- The body of handle_batch_request after the gate (src/plugins/start.py
lines 119-175): batch lookup (active links only), the info reply, the
per-file loop in stored order, one increment of the batch access counter
and of the user counter, and the completion reply with the sent count
out of the total. -/
def batchRequestCore (cfg : BotConfig) (copyCalls : String → Nat → CallResult)
    (now : Int) (w : World) (user_id : Int) (batch_id : String) : HandlerRun :=
  match get_batch_link w.db batch_id with
  | none =>
    { world := w, replies := [Reply.batchNotFound], delivered := [], raised := none }
  | some b =>
    let r := batchLoop cfg copyCalls now w.db b.file_ids w.sched 0 []
    let db := increment_batch_access w.db batch_id
    let db := increment_user_file_access db user_id
    { world := { db := db, sched := r.1 },
      replies := [Reply.batchInfo b.title b.file_ids.length b.access_count,
        Reply.batchComplete r.2.1 b.file_ids.length],
      delivered := r.2.2, raised := none }

/-- Embeds handle_batch_request (src/plugins/start.py lines 108-175): line
113 tests the always-truthy property object, so every batch request
enters the gate branch and check_force_subscription raises TypeError
there, before the batch lookup — the loop, the counts, and the counter
increments of lines 119-175 are unreachable as the program stands. -/
def handle_batch_request (cfg : BotConfig) (env : GatewayEnv)
    (copyCalls : String → Nat → CallResult) (now : Int) (w : World)
    (user_id : Int) (batch_id : String) : HandlerRun :=
  if IS_FORCE_SUB_ENABLED_attr then
    match check_force_subscription env user_id with
    | Except.error e =>
      { world := w, replies := [], delivered := [], raised := some e }
    | Except.ok report =>
      if report.all_joined = false then
        { world := w, replies := [Reply.forceSub report], delivered := [],
          raised := none }
      else batchRequestCore cfg copyCalls now w user_id batch_id
  else batchRequestCore cfg copyCalls now w user_id batch_id

/-- Embeds start_handler (src/plugins/start.py lines 11-60): register the
user, then dispatch on the start parameter — batch-prefixed tokens go to
the batch flow, tokens accepted by get_file_id go to the single-file
flow, and everything else (no parameter, or a token get_file_id rejects)
falls through to the welcome message. -/
def start_handler (cfg : BotConfig) (env : GatewayEnv)
    (copyCalls : String → Nat → CallResult) (now : Int) (w : World)
    (user_id : Int) (ud : UserData) (param : Option String) : HandlerRun :=
  let w2 : World := { w with db := add_user w.db user_id ud now }
  match param with
  | some p =>
    if startsWithBatch p then handle_batch_request cfg env copyCalls now w2 user_id p
    else
      match get_file_id p with
      | some fid => handle_file_request cfg env copyCalls now w2 user_id fid
      | none =>
        { world := w2, replies := [Reply.welcome], delivered := [], raised := none }
  | none =>
    { world := w2, replies := [Reply.welcome], delivered := [], raised := none }

end FileShareBot

namespace FileShareBot

/-! ## Shared concrete fixtures used by witnesses -/

/-- A gateway on which every channel resolution fails (channel private). -/
def gateClosedEnv : GatewayEnv :=
  { getChat := fun _ => ChatResult.channelPrivate,
    exportChatInviteLink := fun _ => none,
    getChatMember := fun _ _ => MemberResult.userNotParticipant }

/-- A world with empty collections and a running scheduler. -/
def emptyWorld : World :=
  { db := { users := [], files := [], batch_links := [] },
    sched := { queue := [], timers := [], isRunning := true } }

/-- A copy oracle on which every attempt fails with a generic error. -/
def failCopy : String → Nat → CallResult :=
  fun _ _ => CallResult.otherError "unavailable"

/-- Display fields of a concrete requester. -/
def cxUserData : UserData :=
  { first_name := "A", last_name := "", username := "" }

/-- A concrete oracle that rate-limits every attempt. -/
def alwaysFloodCall : Nat → CallResult :=
  fun _ => CallResult.floodWait 3

/-- An empty scheduler state with the manager running. -/
def freshSched : SchedState :=
  { queue := [], timers := [], isRunning := true }

/-- A scheduler state holding one persisted row for (1, 2) and no armed
timer — the state left behind for example by a restart after a schedule
call. -/
def orphanSched : SchedState :=
  { queue := [{ chat_id := 1, message_id := 2, delete_at := 5, created_at := 0 }],
    timers := [], isRunning := true }

/-- A scheduler state holding one persisted row and one armed timer for
(1, 2). -/
def armedSched : SchedState :=
  { queue := [{ chat_id := 1, message_id := 2, delete_at := 5, created_at := 0 }],
    timers := [{ id := deleteJobId 1 2, runDate := 5, chat_id := 1, message_id := 2 }],
    isRunning := true }

/-! ## Derived characterizations used in theorem statements -/

/-- Embeds Database.get_messages_to_delete (src/database/database.py
lines 259-266), the sweep's read: all queue rows whose due time has
passed. -/
def get_messages_to_delete (queue : List QueueRow) (now : Int) : List QueueRow :=
  queue.filter (fun r => r.delete_at ≤ now)

/-- Characterization of the joined flag as a function of the two gateway
answers alone. -/
def joinedStatus : ChatResult → MemberResult → Bool
  | ChatResult.ok _ _, MemberResult.ok s => decide (s ≠ "left" ∧ s ≠ "kicked")
  | _, _ => false

/-- Characterization of the recorded error as a function of the two
gateway answers alone. -/
def errorStatus : ChatResult → MemberResult → Option String
  | ChatResult.ok _ _, MemberResult.ok _ => none
  | ChatResult.ok _ _, MemberResult.userNotParticipant => none
  | ChatResult.ok _ _, MemberResult.otherError m => some m
  | ChatResult.channelPrivate, _ => some "Channel is private or bot lacks admin privileges"
  | ChatResult.chatAdminRequired, _ => some "Bot needs admin privileges in this channel"
  | ChatResult.otherError m, _ => some m

/-- The outcome of one independent per-file delivery attempt inside a
batch: the message sent when the token resolves and the retried copy
succeeds, none otherwise. Built from the same primitives the loop uses. -/
def deliverOne (db : DB) (copyCalls : String → Nat → CallResult)
    (fid : String) : Option SentMsg :=
  match get_file db fid with
  | none => none
  | some _ =>
    match (copy_message_with_retry (copyCalls fid)).result with
    | CallResult.ok sent => some sent
    | CallResult.floodWait _ => none
    | CallResult.otherError _ => none

/-- Durability invariant of the scheduler: every armed in-process timer
has a persisted queue row for its (chat, message) key, so the sweep
covers it across a restart. -/
def timersCovered (st : SchedState) : Prop :=
  ∀ t ∈ st.timers, ∃ r ∈ st.queue,
    r.chat_id = t.chat_id ∧ r.message_id = t.message_id

/-! ## Access gate lemmas -/

/-- The gate loop appends the per-channel reports in configuration order
and lands all_joined on the conjunction of the joined flags. -/
theorem checkForceSubLoop_spec (env : GatewayEnv) (uid : Int) (l : List Int)
    (acc : SubscriptionStatus) :
    checkForceSubLoop env uid l acc =
      { all_joined := acc.all_joined &&
          (l.map (check_channel_subscription env uid)).all (fun c => c.joined),
        channels := acc.channels ++ l.map (check_channel_subscription env uid) } := by
  induction l generalizing acc with
  | nil => simp [checkForceSubLoop]
  | cons cid rest ih =>
    unfold checkForceSubLoop
    cases hj : (check_channel_subscription env uid cid).joined with
    | false => simp [hj, ih]
    | true => simp [hj, ih]

/-- An empty channel list is exactly the disabled configuration. -/
theorem isForceSubEnabled_false_iff (channels : List Int) :
    isForceSubEnabled channels = false ↔ channels = [] := by
  cases channels <;> simp [isForceSubEnabled]

/-- The joined flag of the per-channel report depends only on the
get_chat and get_chat_member answers, as joinedStatus describes. -/
theorem check_channel_subscription_joined (env : GatewayEnv) (uid cid : Int) :
    (check_channel_subscription env uid cid).joined =
      joinedStatus (env.getChat cid) (env.getChatMember cid uid) := by
  unfold check_channel_subscription joinedStatus
  cases env.getChat cid with
  | ok t u =>
    cases env.getChatMember cid uid with
    | ok s =>
      by_cases hs : s ≠ "left" ∧ s ≠ "kicked" <;> cases u <;>
        simp [hs] <;> cases env.exportChatInviteLink cid <;> simp [hs]
    | userNotParticipant =>
      cases u <;> simp <;> cases env.exportChatInviteLink cid <;> simp
    | otherError m =>
      cases u <;> simp <;> cases env.exportChatInviteLink cid <;> simp
  | channelPrivate => simp
  | chatAdminRequired => simp
  | otherError m => simp

/-- The error field of the per-channel report depends only on the
get_chat and get_chat_member answers, as errorStatus describes. -/
theorem check_channel_subscription_error (env : GatewayEnv) (uid cid : Int) :
    (check_channel_subscription env uid cid).error =
      errorStatus (env.getChat cid) (env.getChatMember cid uid) := by
  unfold check_channel_subscription errorStatus
  cases env.getChat cid with
  | ok t u =>
    cases env.getChatMember cid uid with
    | ok s =>
      by_cases hs : s ≠ "left" ∧ s ≠ "kicked" <;> cases u <;>
        simp [hs] <;> cases env.exportChatInviteLink cid <;> simp [hs]
    | userNotParticipant =>
      cases u <;> simp <;> cases env.exportChatInviteLink cid <;> simp
    | otherError m =>
      cases u <;> simp <;> cases env.exportChatInviteLink cid <;> simp
  | channelPrivate => simp
  | chatAdminRequired => simp
  | otherError m => simp

/-- Claim C1, per-channel part, joined direction: the joined flag is true
exactly when the channel resolved, the membership query returned a
status, and that status is neither left nor kicked. -/
theorem check_channel_subscription_joined_iff (env : GatewayEnv)
    (uid cid : Int) :
    (check_channel_subscription env uid cid).joined = true ↔
      ∃ t u s, env.getChat cid = ChatResult.ok t u ∧
        env.getChatMember cid uid = MemberResult.ok s ∧
        s ≠ "left" ∧ s ≠ "kicked" := by
  rw [check_channel_subscription_joined]
  cases env.getChat cid with
  | ok t u =>
    cases env.getChatMember cid uid with
    | ok s => simp [joinedStatus, and_assoc]
    | userNotParticipant => simp [joinedStatus]
    | otherError m => simp [joinedStatus]
  | channelPrivate => simp [joinedStatus]
  | chatAdminRequired => simp [joinedStatus]
  | otherError m => simp [joinedStatus]

/-- Claim C1, per-channel part, error recording: a failed channel
resolution or a failed (non-UserNotParticipant) membership query records
the error and leaves the channel not joined. -/
theorem check_channel_subscription_error_cases (env : GatewayEnv)
    (uid cid : Int) :
    ((∀ t u, env.getChat cid ≠ ChatResult.ok t u) →
      (check_channel_subscription env uid cid).error.isSome = true ∧
      (check_channel_subscription env uid cid).joined = false) ∧
    (∀ t u m, env.getChat cid = ChatResult.ok t u →
      env.getChatMember cid uid = MemberResult.otherError m →
      (check_channel_subscription env uid cid).error = some m ∧
      (check_channel_subscription env uid cid).joined = false) := by
  rw [check_channel_subscription_error, check_channel_subscription_joined]
  cases env.getChat cid with
  | ok t u =>
    cases env.getChatMember cid uid with
    | ok s => simp [joinedStatus, errorStatus]
    | userNotParticipant => simp [joinedStatus, errorStatus]
    | otherError m => simp [joinedStatus, errorStatus]
  | channelPrivate => simp [joinedStatus, errorStatus]
  | chatAdminRequired => simp [joinedStatus, errorStatus]
  | otherError m => simp [joinedStatus, errorStatus]

/-- Claim C1 (code bug): for every gateway and user, the Access Gate
never produces the report the claim describes — its first statement
calls the class-level property object Config.IS_FORCE_SUB_ENABLED and
raises TypeError, so no per-channel joined flags and no all-satisfied
conjunction are ever computed. (The per-channel semantics the claim
describes are faithfully present in check_channel_subscription, proved
in the lemmas above, but that code is unreachable through the gate.) -/
theorem access_gate_always_raises (env : GatewayEnv) (uid : Int) :
    check_force_subscription env uid =
      Except.error (PyExc.typeError "'property' object is not callable") ∧
    ∀ report : SubscriptionStatus,
      check_force_subscription env uid ≠ Except.ok report := by
  refine ⟨rfl, fun report h => ?_⟩
  simp [check_force_subscription, IS_FORCE_SUB_ENABLED_call] at h

/-- Claim C9 (code bug): even with all three channel slots unset — the
configured prerequisite list the property body would compute is empty —
the gate does not return the all-satisfied empty report: it raises
TypeError before the disabled short-circuit can run. -/
theorem access_gate_empty_channels_bug (env : GatewayEnv) (uid : Int) :
    FORCE_SUB_CHANNELS 0 0 0 = [] ∧
    isForceSubEnabled (FORCE_SUB_CHANNELS 0 0 0) = false ∧
    check_force_subscription env uid ≠
      Except.ok { all_joined := true, channels := [] } ∧
    check_force_subscription env uid =
      Except.error (PyExc.typeError "'property' object is not callable") := by
  refine ⟨rfl, rfl, fun h => ?_, rfl⟩
  simp [check_force_subscription, IS_FORCE_SUB_ENABLED_call] at h

/-! ## Single-file delivery under the broken gate (C2) -/

/-- Claim C2 (code bug): every single-file request — gate met or not —
enters the gate branch through the always-truthy property test and the
TypeError from check_force_subscription escapes the handler: no reply is
sent (in particular no gate-failed report), nothing is delivered or
scheduled, and no counter or collection changes; invoking the flow again
from the resulting world produces the identical crash outcome. The
AccessGateFailed outcome the claim describes is never produced. -/
theorem file_request_always_raises (cfg : BotConfig) (env : GatewayEnv)
    (copyCalls : String → Nat → CallResult) (now : Int) (w : World)
    (user_id : Int) (file_id : String) :
    handle_file_request cfg env copyCalls now w user_id file_id =
      { world := w, replies := [], delivered := [],
        raised := some (PyExc.typeError "'property' object is not callable") } ∧
    handle_file_request cfg env copyCalls now
        (handle_file_request cfg env copyCalls now w user_id file_id).world
        user_id file_id =
      handle_file_request cfg env copyCalls now w user_id file_id :=
  ⟨rfl, rfl⟩

/-! ## Flood-wait retry discipline (C7) -/

/-- Helper: a first-attempt rate limit of N seconds makes both bot.py
retry wrappers sleep exactly N seconds and re-issue the call exactly
once, after which whatever the second attempt produced — including a
second FloodWait — is handed to the caller without further sleeping or
retrying; without a first-attempt rate limit there is no sleep and no
retry; and no wrapper path makes more than two underlying attempts. -/
theorem flood_wait_single_retry (call : Nat → CallResult) :
    (∀ n, call 0 = CallResult.floodWait n →
      copy_message_with_retry call =
        { result := call 1, sleeps := [n], callCount := 2 } ∧
      send_message_with_retry call =
        { result := call 1, sleeps := [n], callCount := 2 } ∧
      ∀ n2, call 1 = CallResult.floodWait n2 →
        (copy_message_with_retry call).result = CallResult.floodWait n2 ∧
        (copy_message_with_retry call).sleeps = [n]) ∧
    ((∀ n, call 0 ≠ CallResult.floodWait n) →
      copy_message_with_retry call =
        { result := call 0, sleeps := [], callCount := 1 } ∧
      send_message_with_retry call =
        { result := call 0, sleeps := [], callCount := 1 }) ∧
    (copy_message_with_retry call).callCount ≤ 2 ∧
    (send_message_with_retry call).callCount ≤ 2 := by
  unfold copy_message_with_retry send_message_with_retry
  cases h0 : call 0 with
  | ok v => simp [h0]
  | floodWait n =>
    refine ⟨fun n2 hn2 => ?_, fun hno => absurd rfl (hno n), by simp, by simp⟩
    obtain rfl : n = n2 := by simpa using hn2
    exact ⟨rfl, rfl, fun n3 h3 => ⟨by simp [h3], rfl⟩⟩
  | otherError e => simp [h0]


/-- Claim C7 counterexample: the delivery flow's reply sends are direct
message.reply_text gateway calls with no wrapper, so a rate-limit signal
of 3 seconds on such a call comes straight back to the caller with no
sleep and no second attempt — not the claimed suspend-for-N-and-retry-
once behaviour, refuting the universal over every gateway call made by
the delivery flow. -/
theorem delivery_reply_flood_counterexample :
    (reply_text_raw alwaysFloodCall).result = CallResult.floodWait 3 ∧
    (reply_text_raw alwaysFloodCall).sleeps = [] ∧
    (reply_text_raw alwaysFloodCall).callCount = 1 :=
  ⟨rfl, rfl, rfl⟩

/-- Claim C7 as amended: only the calls routed through the bot.py
wrappers implement the rate-limit discipline — a first FloodWait of N
seconds suspends N seconds and retries the same call exactly once, a
second FloodWait on the retry propagates as a failure, and no wrapper
makes more than two attempts; the delivery flow's other gateway calls
(the direct reply_text sends) are single raw attempts whose rate-limit
signal propagates immediately with no sleep and no retry. -/
theorem gateway_retry_amended (call : Nat → CallResult) :
    (∀ n, call 0 = CallResult.floodWait n →
      copy_message_with_retry call =
        { result := call 1, sleeps := [n], callCount := 2 } ∧
      send_message_with_retry call =
        { result := call 1, sleeps := [n], callCount := 2 } ∧
      ∀ n2, call 1 = CallResult.floodWait n2 →
        (copy_message_with_retry call).result = CallResult.floodWait n2 ∧
        (copy_message_with_retry call).sleeps = [n]) ∧
    ((∀ n, call 0 ≠ CallResult.floodWait n) →
      copy_message_with_retry call =
        { result := call 0, sleeps := [], callCount := 1 } ∧
      send_message_with_retry call =
        { result := call 0, sleeps := [], callCount := 1 }) ∧
    (copy_message_with_retry call).callCount ≤ 2 ∧
    (send_message_with_retry call).callCount ≤ 2 ∧
    reply_text_raw call = { result := call 0, sleeps := [], callCount := 1 } :=
  ⟨(flood_wait_single_retry call).1, (flood_wait_single_retry call).2.1,
   (flood_wait_single_retry call).2.2.1, (flood_wait_single_retry call).2.2.2, rfl⟩

/-- Witness for the amended C7 at an oracle whose both attempts are
rate-limited: the wrappers sleep 3 seconds and make two attempts with
the second FloodWait returned, while the raw reply send returns the
FloodWait after one attempt and no sleep. -/
theorem gateway_retry_amended_witness :
    copy_message_with_retry alwaysFloodCall =
      { result := alwaysFloodCall 1, sleeps := [3], callCount := 2 } ∧
    send_message_with_retry alwaysFloodCall =
      { result := alwaysFloodCall 1, sleeps := [3], callCount := 2 } ∧
    reply_text_raw alwaysFloodCall =
      { result := alwaysFloodCall 0, sleeps := [], callCount := 1 } :=
  ⟨((gateway_retry_amended alwaysFloodCall).1 3 rfl).1,
   ((gateway_retry_amended alwaysFloodCall).1 3 rfl).2.1,
   (gateway_retry_amended alwaysFloodCall).2.2.2.2⟩

/-! ## Delete-queue and timer lemmas -/

/-- Removing the first match decrements the key's row count by one. -/
theorem countMatch_removeFirstMatch (q : List QueueRow) (c m : Int) :
    countMatch (removeFirstMatch c m q) c m = countMatch q c m - 1 := by
  induction q with
  | nil => rfl
  | cons r rest ih =>
    by_cases h1 : r.chat_id = c
    · by_cases h2 : r.message_id = m
      · simp [removeFirstMatch, countMatch, h1, h2, List.countP_cons]
      · simp only [removeFirstMatch, countMatch, h1, h2, and_false, if_false,
          List.countP_cons] at ih ⊢
        simp [h2, ih]
    · simp only [removeFirstMatch, countMatch, h1, false_and, if_false,
        List.countP_cons] at ih ⊢
      simp [h1, ih]

/-- Filtering a job id out and then keeping only that id yields nothing. -/
theorem timer_filter_ne_eq (l : List TimerJob) (jid : String) :
    (l.filter (fun u => u.id ≠ jid)).filter (fun t => t.id == jid) = [] := by
  induction l with
  | nil => rfl
  | cons x xs ih => by_cases h : x.id = jid <;> simp [h, ih]

/-- Claim C3 counterexample: from an empty running scheduler, scheduling
(1, 2) with delay 100 and then delay 10 leaves a persisted row count for
that key different from one (two rows are inserted; insert_one never
replaces). -/
theorem schedule_twice_row_count_counterexample :
    countMatch
      ((schedule_delete (schedule_delete freshSched 1 2 100 0) 1 2 10 0).queue)
      1 2 ≠ 1 := by
  decide

/-- Claim C3 as amended: scheduling the same key twice with positive
delays appends one persisted row per call — two rows, the newer carrying
due time now + d2 — while the in-process timer for the key is replaced,
leaving exactly one armed timer, which reflects the second call. -/
theorem schedule_twice_amended (st : SchedState) (c m d1 d2 n1 n2 : Int)
    (hrun : st.isRunning = true) (h1 : 0 < d1) (h2 : 0 < d2) :
    (schedule_delete (schedule_delete st c m d1 n1) c m d2 n2).queue =
      st.queue ++
        [{ chat_id := c, message_id := m, delete_at := n1 + d1, created_at := n1 },
         { chat_id := c, message_id := m, delete_at := n2 + d2, created_at := n2 }] ∧
    timersFor (schedule_delete (schedule_delete st c m d1 n1) c m d2 n2)
        (deleteJobId c m) =
      [{ id := deleteJobId c m, runDate := n2 + d2, chat_id := c,
         message_id := m }] := by
  have hc1 : ¬(st.isRunning = false ∨ d1 ≤ 0) := by
    simp only [hrun, not_or]
    exact ⟨by simp, by omega⟩
  have hc2 : ¬(st.isRunning = false ∨ d2 ≤ 0) := by
    simp only [hrun, not_or]
    exact ⟨by simp, by omega⟩
  unfold schedule_delete schedule_delete_ops
  rw [if_neg hc1]
  simp only [List.foldl, applySchedOp]
  rw [if_neg hc2]
  simp only [List.foldl, applySchedOp]
  constructor
  · simp
  · simp [timersFor, List.filter_append, timer_filter_ne_eq]

/-- Witness for the amended C3 at the empty running scheduler. -/
theorem schedule_twice_amended_witness :
    (schedule_delete (schedule_delete freshSched 1 2 100 0) 1 2 10 0).queue =
      freshSched.queue ++
        [{ chat_id := 1, message_id := 2, delete_at := 0 + 100, created_at := 0 },
         { chat_id := 1, message_id := 2, delete_at := 0 + 10, created_at := 0 }] ∧
    timersFor (schedule_delete (schedule_delete freshSched 1 2 100 0) 1 2 10 0)
        (deleteJobId 1 2) =
      [{ id := deleteJobId 1 2, runDate := 0 + 10, chat_id := 1,
         message_id := 2 }] :=
  schedule_twice_amended freshSched 1 2 100 10 0 0 rfl (by decide) (by decide)

/-- Claim C4: a delete attempt for a pending (chat, message) entry — the
queue holding at most one row for the key, as each pending key should —
leaves no queue row for that key behind, and the resulting state is the
same whether the remote deletion succeeded or failed. -/
theorem delete_attempt_clears_queue_entry (st : SchedState) (c m : Int)
    (ok : Bool) (h : countMatch st.queue c m ≤ 1) :
    countMatch (delete_message_run st c m ok).queue c m = 0 ∧
    delete_message_run st c m true = delete_message_run st c m false := by
  refine ⟨?_, rfl⟩
  cases ok <;> simp only [delete_message_run, if_true, if_false, Bool.false_eq_true] <;>
    rw [countMatch_removeFirstMatch] <;> omega

/-- Witness for C4: one pending row for (1, 2), remote delete failing. -/
theorem delete_attempt_clears_queue_entry_witness :
    countMatch (delete_message_run orphanSched 1 2 false).queue 1 2 = 0 ∧
    delete_message_run orphanSched 1 2 true =
      delete_message_run orphanSched 1 2 false :=
  delete_attempt_clears_queue_entry orphanSched 1 2 false (by decide)

/-- Claim C5 counterexample: with a persisted row for (1, 2) but no armed
timer, cancel_delete leaves the state — and in particular the persisted
entry — untouched (remove_job raises first, skipping the queue removal),
and the sweep read at the due time still finds the entry. -/
theorem cancel_without_timer_counterexample :
    cancel_delete orphanSched 1 2 = orphanSched ∧
    countMatch (cancel_delete orphanSched 1 2).queue 1 2 = 1 ∧
    get_messages_to_delete (cancel_delete orphanSched 1 2).queue 5 =
      [{ chat_id := 1, message_id := 2, delete_at := 5, created_at := 0 }] := by
  decide

/-- Claim C5 as amended: when a timer is armed for the key, cancel
removes both the timer and one persisted row for the key; when no timer
is armed, cancel is a no-op that leaves any persisted entry in place; in
both cases it returns normally. -/
theorem cancel_delete_cases (st : SchedState) (c m : Int) :
    (hasTimer st (deleteJobId c m) = true →
      timersFor (cancel_delete st c m) (deleteJobId c m) = [] ∧
      countMatch (cancel_delete st c m).queue c m = countMatch st.queue c m - 1) ∧
    (hasTimer st (deleteJobId c m) = false → cancel_delete st c m = st) := by
  constructor
  · intro h
    simp only [cancel_delete, h, if_true]
    exact ⟨by simp [timersFor, timer_filter_ne_eq],
           by simp [countMatch_removeFirstMatch]⟩
  · intro h
    simp [cancel_delete, h]

/-- Witness for the amended C5 at a state with an armed timer and one
persisted row. -/
theorem cancel_delete_cases_witness :
    timersFor (cancel_delete armedSched 1 2) (deleteJobId 1 2) = [] ∧
    countMatch (cancel_delete armedSched 1 2).queue 1 2 =
      countMatch armedSched.queue 1 2 - 1 :=
  (cancel_delete_cases armedSched 1 2).1 (by decide)

/-- Claim C10: schedule_delete persists the queue row before arming the
timer, so from any state where every armed timer is covered by a
persisted row, every intermediate state of a schedule call — every
prefix of its effect list, i.e. every point a restart could cut it —
keeps every armed timer covered by a persisted row. -/
theorem queue_row_precedes_timer (st : SchedState) (c m d now : Int)
    (h : timersCovered st) (k : Nat) :
    timersCovered
      (((schedule_delete_ops st c m d now).take k).foldl applySchedOp st) := by
  unfold schedule_delete_ops
  by_cases hc : st.isRunning = false ∨ d ≤ 0
  · rw [if_pos hc]
    simpa using h
  · rw [if_neg hc]
    match k with
    | 0 => simpa using h
    | 1 =>
      intro t ht
      simp only [List.take_succ_cons, List.take_nil, List.foldl, applySchedOp] at ht ⊢
      obtain ⟨r, hr, hr1, hr2⟩ := h t ht
      exact ⟨r, List.mem_append_left _ hr, hr1, hr2⟩
    | (n + 2) =>
      intro t ht
      simp only [List.take_succ_cons, List.take_nil, List.foldl, applySchedOp] at ht ⊢
      rcases List.mem_append.mp ht with hin | hnew
      · obtain ⟨r, hr, hr1, hr2⟩ := h t (List.mem_of_mem_filter hin)
        exact ⟨r, List.mem_append_left _ hr, hr1, hr2⟩
      · obtain rfl := List.mem_singleton.mp hnew
        refine ⟨{ chat_id := c, message_id := m, delete_at := now + d, created_at := now }, ?_, rfl, rfl⟩
        exact List.mem_append_right _ (List.mem_singleton.mpr rfl)

/-- Witness for C10: a full schedule call on the empty covered state. -/
theorem queue_row_precedes_timer_witness :
    timersCovered
      (((schedule_delete_ops freshSched 1 2 5 0).take 2).foldl applySchedOp
        freshSched) :=
  queue_row_precedes_timer freshSched 1 2 5 0 (by simp [timersCovered, freshSched]) 2

/-! ## Batch delivery lemmas (C6) -/

/-- The batch loop's sent counter adds one per token whose independent
delivery attempt succeeds. -/
theorem batchLoop_sentCount (cfg : BotConfig) (copyCalls : String → Nat → CallResult)
    (now : Int) (db : DB) (l : List String) (sched : SchedState) (sentCount : Nat)
    (acc : List SentMsg) :
    (batchLoop cfg copyCalls now db l sched sentCount acc).2.1 =
      sentCount + l.countP (fun fid => (deliverOne db copyCalls fid).isSome) := by
  induction l generalizing sched sentCount acc with
  | nil => simp [batchLoop]
  | cons fid rest ih =>
    unfold batchLoop
    cases hf : get_file db fid with
    | none =>
      simp [deliverOne, hf, ih, List.countP_cons]
    | some fd =>
      cases hr : (copy_message_with_retry (copyCalls fid)).result with
      | ok sent =>
        simp [deliverOne, hf, hr, ih, List.countP_cons]
        omega
      | floodWait n =>
        simp [deliverOne, hf, hr, ih, List.countP_cons]
      | otherError e =>
        simp [deliverOne, hf, hr, ih, List.countP_cons]

/-- The batch loop delivers exactly the in-order successful per-token
attempts, appended after the accumulator — so one failing file never
aborts the remainder. -/
theorem batchLoop_delivered (cfg : BotConfig) (copyCalls : String → Nat → CallResult)
    (now : Int) (db : DB) (l : List String) (sched : SchedState) (sentCount : Nat)
    (acc : List SentMsg) :
    (batchLoop cfg copyCalls now db l sched sentCount acc).2.2 =
      acc ++ l.filterMap (deliverOne db copyCalls) := by
  induction l generalizing sched sentCount acc with
  | nil => simp [batchLoop]
  | cons fid rest ih =>
    unfold batchLoop
    cases hf : get_file db fid with
    | none =>
      rw [List.filterMap_cons_none]
      · exact ih ..
      · simp [deliverOne, hf]
    | some fd =>
      cases hr : (copy_message_with_retry (copyCalls fid)).result with
      | ok sent =>
        rw [List.filterMap_cons_some (b := sent)]
        · simp [hr, ih]
        · simp [deliverOne, hf, hr]
      | floodWait n =>
        rw [List.filterMap_cons_none]
        · simp [hr, ih]
        · simp [deliverOne, hf, hr]
      | otherError e =>
        rw [List.filterMap_cons_none]
        · simp [hr, ih]
        · simp [deliverOne, hf, hr]

/-- Per-token success and failure counts partition the token list. -/
theorem deliverOne_counts_partition (db : DB) (copyCalls : String → Nat → CallResult)
    (l : List String) :
    l.countP (fun fid => (deliverOne db copyCalls fid).isSome) +
      l.countP (fun fid => (deliverOne db copyCalls fid).isNone) = l.length := by
  induction l with
  | nil => rfl
  | cons fid rest ih =>
    simp only [List.countP_cons]
    cases deliverOne db copyCalls fid <;> simp <;> omega

/-- Bumping the batch counter under the unique batch-token index: the
looked-up active document reappears with its counter one higher. -/
theorem find_active_after_inc (l : List BatchDoc) (bid : String) (b : BatchDoc)
    (hb : l.find? (fun x => x.batch_id == bid && x.is_active) = some b)
    (huniq : l.countP (fun x => x.batch_id == bid) ≤ 1) :
    (updateFirst (fun x => x.batch_id == bid)
        (fun x => { x with access_count := x.access_count + 1 }) l).find?
      (fun x => x.batch_id == bid && x.is_active) =
      some { b with access_count := b.access_count + 1 } := by
  induction l with
  | nil => simp at hb
  | cons x xs ih =>
    by_cases hid : x.batch_id = bid
    · by_cases hact : x.is_active = true
      · have hpx : (x.batch_id == bid && x.is_active) = true := by simp [hid, hact]
        simp only [List.find?, hpx] at hb
        obtain rfl : x = b := Option.some.inj hb
        simp [updateFirst, List.find?, hid, hact]
      · have hpx : (x.batch_id == bid && x.is_active) = false := by simp [hact]
        simp only [List.find?, hpx] at hb
        exfalso
        have hpb := List.find?_some hb
        have hbin := List.mem_of_find?_eq_some hb
        have hcnt : 0 < xs.countP (fun y => y.batch_id == bid) := by
          refine List.countP_pos_iff.mpr ⟨b, hbin, ?_⟩
          simp only [Bool.and_eq_true] at hpb
          exact hpb.1
        have hxx : (x.batch_id == bid) = true := by simp [hid]
        rw [List.countP_cons] at huniq
        simp only [hxx, if_true] at huniq
        omega
    · have hpx : (x.batch_id == bid && x.is_active) = false := by simp [hid]
      simp only [List.find?, hpx] at hb
      have hxx : (x.batch_id == bid) = false := by simp [hid]
      have hcnt : xs.countP (fun y => y.batch_id == bid) ≤ 1 := by
        rw [List.countP_cons] at huniq
        simp only [hxx] at huniq
        omega
      have hres := ih hb hcnt
      simp [updateFirst, List.find?, hxx, hpx, hres]

/-- Claim C6 (code bug): every batch request crashes at the gate — the
always-truthy property test at start.py line 113 sends it into the gate
branch, where check_force_subscription raises TypeError before the batch
lookup. The loop, the sent/skipped counts, and the single counter
increment the claim describes never execute: no reply is sent, nothing
is delivered, and the world — including every batch access counter — is
unchanged. (The loop semantics the claim describes are faithfully
present in batchLoop and batchRequestCore, analysed in the lemmas above,
but that code is unreachable as the program stands.) -/
theorem batch_request_always_raises (cfg : BotConfig) (env : GatewayEnv)
    (copyCalls : String → Nat → CallResult) (now : Int) (w : World)
    (user_id : Int) (batch_id : String) :
    handle_batch_request cfg env copyCalls now w user_id batch_id =
      { world := w, replies := [], delivered := [],
        raised := some (PyExc.typeError "'property' object is not callable") } ∧
    get_batch_link
        (handle_batch_request cfg env copyCalls now w user_id batch_id).world.db
        batch_id =
      get_batch_link w.db batch_id :=
  ⟨rfl, rfl⟩

/-! ## Invalid share-token handling (C8) -/

/-- Registering the requester never touches the files collection. -/
theorem add_user_files (db : DB) (uid : Int) (ud : UserData) (now : Int) :
    (add_user db uid ud now).files = db.files := by
  unfold add_user update_user_activity
  by_cases h : (db.users.any (fun u => u.user_id == uid)) = true <;> simp [h]

/-- Registering the requester never touches the batch collection. -/
theorem add_user_batch_links (db : DB) (uid : Int) (ud : UserData) (now : Int) :
    (add_user db uid ud now).batch_links = db.batch_links := by
  unfold add_user update_user_activity
  by_cases h : (db.users.any (fun u => u.user_id == uid)) = true <;> simp [h]

/-- Touching last_activity preserves the files_accessed counter read
through find?. -/
theorem find?_updateFirst_activity (l : List UserDoc) (uid now : Int) :
    ((updateFirst (fun u => u.user_id == uid)
        (fun u => { u with last_activity := now }) l).find?
      (fun u => u.user_id == uid)).map (fun u => u.files_accessed) =
      (l.find? (fun u => u.user_id == uid)).map (fun u => u.files_accessed) := by
  induction l with
  | nil => rfl
  | cons x xs ih =>
    by_cases h : x.user_id = uid
    · have hx : (x.user_id == uid) = true := by simp [h]
      simp [updateFirst, List.find?, hx]
    · have hx : (x.user_id == uid) = false := by simp [h]
      simp [updateFirst, List.find?, hx, ih]

/-- Registering the requester preserves their files_accessed counter
(an existing user only gets last_activity touched; a fresh user starts
at zero, the same value an absent user reads as). -/
theorem filesAccessedOf_add_user (db : DB) (uid : Int) (ud : UserData) (now : Int) :
    filesAccessedOf (add_user db uid ud now) uid = filesAccessedOf db uid := by
  unfold add_user
  by_cases h : (db.users.any (fun u => u.user_id == uid)) = true
  · simp only [h, if_true]
    unfold filesAccessedOf update_user_activity
    rw [find?_updateFirst_activity]
  · simp only [h, if_false, Bool.false_eq_true]
    unfold filesAccessedOf
    have hnone : db.users.find? (fun u => u.user_id == uid) = none := by
      rw [List.find?_eq_none]
      intro x hx hpx
      exact h (List.any_eq_true.mpr ⟨x, hx, hpx⟩)
    simp only []
    rw [List.find?_append, hnone]
    simp [List.find?]

/-- Fidelity check of the decoder model against CPython: stray padding
after a complete quad is ignored, so YV9i== decodes to a_b, which has
the required two underscore-split parts and is accepted as a file id. -/
theorem get_file_id_excess_padding_accepted :
    pyB64Decode "YV9i==" = some [97, 95, 98] ∧
    get_file_id "YV9i==" = some "YV9i==" := by
  decide

/-- Fidelity check of the decoder model against CPython: padding that
completes a quad ends decoding and everything after it is ignored, so
YV8=XXXX decodes to a_ and is accepted as a file id. -/
theorem get_file_id_data_after_padding_accepted :
    pyB64Decode "YV8=XXXX" = some [97, 95] ∧
    get_file_id "YV8=XXXX" = some "YV8=XXXX" := by
  decide

/-- Claim C8 counterexample: the token aGVsbG8= base64-decodes cleanly
but lacks the timestamp_randomPart shape, so get_file_id rejects it; the
start handler then behaves exactly as a bare /start — the one reply is
the plain welcome message, with no invalid-token error shown and no
exception raised. -/
theorem invalid_token_silent_welcome_counterexample :
    get_file_id "aGVsbG8=" = none ∧
    start_handler { AUTO_DELETE_TIME := 0 } gateClosedEnv
        failCopy 0 emptyWorld 7 cxUserData (some "aGVsbG8=") =
      start_handler { AUTO_DELETE_TIME := 0 } gateClosedEnv
        failCopy 0 emptyWorld 7 cxUserData none ∧
    (start_handler { AUTO_DELETE_TIME := 0 } gateClosedEnv
        failCopy 0 emptyWorld 7 cxUserData (some "aGVsbG8=")).replies =
      [Reply.welcome] := by
  decide

/-- Claim C8 as amended: a non-batch token that get_file_id rejects makes
the start handler fall through to the welcome message — the outcome of a
bare /start, with no error reply — performing no delivery and leaving
the files and batch collections, the requester's access counter, and the
whole scheduler state untouched (only the user-registration touch of
add_user occurs). -/
theorem invalid_token_silent_welcome (cfg : BotConfig) (env : GatewayEnv)
    (copyCalls : String → Nat → CallResult) (now : Int) (w : World)
    (user_id : Int) (ud : UserData) (p : String)
    (hbp : startsWithBatch p = false) (hid : get_file_id p = none) :
    start_handler cfg env copyCalls now w user_id ud (some p) =
      start_handler cfg env copyCalls now w user_id ud none ∧
    start_handler cfg env copyCalls now w user_id ud (some p) =
      { world := { db := add_user w.db user_id ud now, sched := w.sched },
        replies := [Reply.welcome], delivered := [], raised := none } ∧
    (add_user w.db user_id ud now).files = w.db.files ∧
    (add_user w.db user_id ud now).batch_links = w.db.batch_links ∧
    filesAccessedOf (add_user w.db user_id ud now) user_id =
      filesAccessedOf w.db user_id := by
  refine ⟨?_, ?_, add_user_files w.db user_id ud now,
    add_user_batch_links w.db user_id ud now,
    filesAccessedOf_add_user w.db user_id ud now⟩
  · simp [start_handler, hbp, hid]
  · simp [start_handler, hbp, hid]

/-- Witness for the amended C8 at the rejected token aGVsbG8=. -/
theorem invalid_token_silent_welcome_witness :
    start_handler { AUTO_DELETE_TIME := 0 } gateClosedEnv
        failCopy 0 emptyWorld 7 cxUserData (some "aGVsbG8=") =
      start_handler { AUTO_DELETE_TIME := 0 } gateClosedEnv
        failCopy 0 emptyWorld 7 cxUserData none ∧
    start_handler { AUTO_DELETE_TIME := 0 } gateClosedEnv
        failCopy 0 emptyWorld 7 cxUserData (some "aGVsbG8=") =
      { world := { db := add_user emptyWorld.db 7 cxUserData 0, sched := emptyWorld.sched },
        replies := [Reply.welcome], delivered := [], raised := none } ∧
    (add_user emptyWorld.db 7 cxUserData 0).files = emptyWorld.db.files ∧
    (add_user emptyWorld.db 7 cxUserData 0).batch_links =
      emptyWorld.db.batch_links ∧
    filesAccessedOf (add_user emptyWorld.db 7 cxUserData 0) 7 =
      filesAccessedOf emptyWorld.db 7 :=
  invalid_token_silent_welcome { AUTO_DELETE_TIME := 0 }
    gateClosedEnv failCopy 0 emptyWorld 7 cxUserData "aGVsbG8="
    (by decide) (by decide)

end FileShareBot
